import Mathlib

/-!
Shallow embedding of the accountlib HTTP request core:
the request dispatcher (`httprequest/httprequest.go`) and the error
classifier (`errors/errors.go`).

Modelling conventions:
- Go `time.Duration` is an integer count of nanoseconds (`Duration := Int`).
- Go byte slices and strings are both modelled as `String` (opaque byte text).
- A Go `error` value is `Option String` (`none` = nil, `some msg` = an error
  whose `Error()` is `msg`).
- The network is an oracle `net : Nat → AttemptOutcome` giving, for each
  attempt index (0-based), what `http.Client.Do` and the subsequent body read
  would observe on that attempt.
- `http.NewRequest` validity is an oracle `newRequestErr : Option String`
  (`none` = the method/URL build succeeds, `some e` = it fails with message
  `e`); the repository treats `net/http` as an external collaborator.
- Mutation of the shared `http.Client` (its `Timeout` field) and of the
  caller's `RequestSpecifications` (both passed by pointer in Go) is modelled
  by returning the updated values; `DispatchOutcome` carries them so that
  frame properties are statable.
- A Go runtime panic is the `Except.error` branch of `Except GoPanic _`.
-/

namespace AccountLib

/-- Go time.Duration: an integer number of nanoseconds. -/
abbrev Duration := Int

/-- Go time.Millisecond. -/
def millisecond : Duration := 1000000

/-- Go time.Second. -/
def second : Duration := 1000000000

/-- Constant defaultRetryCount from httprequest.go. -/
def defaultRetryCount : Int := 3

/-- Constant defaultTimeout from httprequest.go (5 * time.Second). -/
def defaultTimeout : Duration := 5 * second

/-- Go http.Header: a mapping from canonical names to ordered value lists. -/
abbrev Headers := List (String × List String)

/-- Variable defaultRetryStatusCodes from httprequest.go, in source order:
StatusRequestTimeout (408), StatusGatewayTimeout (504),
StatusServiceUnavailable (503). -/
def defaultRetryStatusCodes : List Int := [408, 504, 503]

/-- Struct RequestSpecifications from httprequest.go. -/
structure RequestSpecifications where
  URL : String
  HTTPMethod : String
  Params : String
  Timeout : Int
  RetryCount : Int
deriving Repr, DecidableEq

/-- Struct RequestHandler from httprequest.go; of the held http.Client we
model the one field the dispatcher reads and writes, its Timeout. -/
structure RequestHandler where
  Timeout : Duration
deriving Repr, DecidableEq

/-- Function NewRequestHandler from httprequest.go: a caller-supplied client
is used verbatim, otherwise a client with the default transport and the
default 5s timeout is built. -/
def NewRequestHandler : Option RequestHandler → RequestHandler
  | some customClient => customClient
  | none => { Timeout := defaultTimeout }

/-- Go http.Request, restricted to what prepareRequest sets:
method, URL, the Content-type header, and the body. -/
structure Request where
  method : String
  url : String
  contentType : Option String
  body : Option String
deriving Repr, DecidableEq

/-- Go runtime panic reasons reachable in this code. -/
inductive GoPanic
  | nilPointerDereference
deriving Repr, DecidableEq

/-- Environment-chosen outcome of one network attempt:
either http.Client.Do fails with a timeout error, or Do fails with another
transport error, or a response arrives with the given status and headers and
the body read yields `some bytes` (success) or `none` (read failure). -/
inductive AttemptOutcome
  | transportTimeout (msg : String)
  | transportFailure (msg : String)
  | response (status : Int) (bodyRead : Option String) (headers : Headers)
deriving Repr, DecidableEq

/-- Return tuple of sendRequest: (statusCode, body, headers, err). -/
structure SendResult where
  statusCode : Int
  body : Option String
  headers : Option Headers
  err : Option String
deriving Repr, DecidableEq

/-- Function checkRetryRequired from httprequest.go: folds
`retryFlag || (retryCode == statusCode)` over defaultRetryStatusCodes. -/
def checkRetryRequired (statusCode : Int) : Bool :=
  defaultRetryStatusCodes.foldl
    (fun retryFlag retryCode => retryFlag || (retryCode == statusCode)) false

/-- Function sendRequest from httprequest.go. On a Do error it returns 408
with a "timeout encountered. error: ..." message when os.IsTimeout holds,
else 0 with a "failed to send request. Error: ..." message. When Do succeeds
but reading the response body fails, the source runs
`err = fmt.Errorf("failed to read response body. error: %s", err.Error())`
where `err` is the nil error left from the successful Do call, so `err.Error()`
dereferences a nil interface and panics. -/
def sendRequest (outcome : AttemptOutcome) : Except GoPanic SendResult :=
  match outcome with
  | .transportTimeout m =>
      .ok { statusCode := 408, body := none, headers := none,
            err := some ("timeout encountered. error: " ++ m) }
  | .transportFailure m =>
      .ok { statusCode := 0, body := none, headers := none,
            err := some ("failed to send request. Error: " ++ m) }
  | .response status bodyRead headers =>
      match bodyRead with
      | none => .error GoPanic.nilPointerDereference
      | some b =>
          .ok { statusCode := status, body := some b, headers := some headers,
                err := none }

/-- Function prepareRequestBody from httprequest.go: wraps the params bytes
as a reader; byte-content identity. -/
def prepareRequestBody (params : String) : String := params

/-- Function prepareRequest from httprequest.go. `newRequestErr` stands for
the result of `http.NewRequest(method, url, nil)`: `some e` when the method
or URL is structurally invalid. On success it defaults RetryCount in the
caller's specs (mutation through the pointer), overrides the shared client's
Timeout when specs.Timeout is nonzero, and attaches body and header for POST.
Returns (client, specs after mutation, request, error). -/
def prepareRequest (newRequestErr : Option String) (r : RequestHandler)
    (specs : RequestSpecifications) :
    RequestHandler × RequestSpecifications × Option Request × Option String :=
  match newRequestErr with
  | some e =>
      (r, specs, none, some ("unable to create http request. error: " ++ e))
  | none =>
      let req : Request :=
        { method := specs.HTTPMethod, url := specs.URL,
          contentType := none, body := none }
      let specs :=
        if specs.RetryCount == 0 then
          { specs with RetryCount := defaultRetryCount }
        else specs
      let r :=
        if specs.Timeout != 0 then
          { r with Timeout := specs.Timeout * second }
        else r
      let req :=
        if specs.HTTPMethod == "POST" then
          { req with contentType := some "application/json",
                     body := some (prepareRequestBody specs.Params) }
        else req
      (r, specs, some req, none)

/-- Initial value of baseBackOffTime in MakeRequest: 100 * time.Millisecond. -/
def baseBackOffTimeInit : Duration := 100 * millisecond

/-- Retry loop of MakeRequest. `remaining` is the number of loop iterations
the guard `requestCount <= specs.RetryCount` still allows (the guard is
checked before each iteration and requestCount starts at 1, so initially
`specs.RetryCount.toNat`). `last` holds the named return values from the
previous attempt (the Go zero values before any attempt). `sleeps` records
each executed `time.Sleep` duration in order; `attempts` counts sendRequest
calls. -/
def requestLoop (net : Nat → AttemptOutcome) (attemptIdx : Nat)
    (remaining : Nat) (backoff : Duration) (last : SendResult)
    (sleeps : List Duration) (attempts : Nat) :
    Except GoPanic (SendResult × List Duration × Nat) :=
  match remaining with
  | 0 => .ok (last, sleeps, attempts)
  | Nat.succ rem =>
      match sendRequest (net attemptIdx) with
      | .error p => .error p
      | .ok res =>
          if checkRetryRequired res.statusCode || res.err.isSome then
            requestLoop net (attemptIdx + 1) rem (2 * backoff) res
              (sleeps ++ [backoff]) (attempts + 1)
          else
            .ok (res, sleeps, attempts + 1)

/-- Observable outcome of one MakeRequest call: the four returned values,
the handler and specs states after the call (both are mutated through
pointers in Go), the backoff sleeps performed, and the attempt count. -/
structure DispatchOutcome where
  statusCode : Int
  body : Option String
  headers : Option Headers
  err : Option String
  handler : RequestHandler
  specs : RequestSpecifications
  sleeps : List Duration
  attempts : Nat
deriving Repr, DecidableEq

/-- Function MakeRequest from httprequest.go: prepare the request, return
immediately on a build error (named returns still zero apart from err), else
run the retry loop with exponential backoff starting at 100ms. -/
def MakeRequest (newRequestErr : Option String) (net : Nat → AttemptOutcome)
    (r : RequestHandler) (specs : RequestSpecifications) :
    Except GoPanic DispatchOutcome :=
  match prepareRequest newRequestErr r specs with
  | (r2, specs2, _, some e) =>
      .ok { statusCode := 0, body := none, headers := none, err := some e,
            handler := r2, specs := specs2, sleeps := [], attempts := 0 }
  | (r2, specs2, _, none) =>
      match requestLoop net 0 specs2.RetryCount.toNat baseBackOffTimeInit
          { statusCode := 0, body := none, headers := none, err := none }
          [] 0 with
      | .error p => .error p
      | .ok (res, sleeps, attempts) =>
          .ok { statusCode := res.statusCode, body := res.body,
                headers := res.headers, err := res.err,
                handler := r2, specs := specs2, sleeps := sleeps,
                attempts := attempts }

/-- Variable ErrorMap from errors/errors.go, as an association list. -/
def ErrorMap : List (Int × String) :=
  [(400, "bad request"), (401, "unauthorized"), (403, "forbidden"),
   (404, "resource not found"), (405, "incorrect http method"),
   (406, "incorrect content type"), (409, "request conflict"),
   (429, "too many requests"), (500, "internal server error"),
   (502, "bad gateway"), (503, "service unavailable"),
   (504, "gateway timeout")]

/-- Function HandleErrorStatusCode from errors/errors.go: format
"category: body" when the status code is in ErrorMap, else
"internal error: body". Always returns a non-nil error. -/
def HandleErrorStatusCode (statusCode : Int) (response : String) :
    Option String :=
  match ErrorMap.lookup statusCode with
  | some errMsg => some (errMsg ++ ": " ++ response)
  | none => some ("internal error: " ++ response)

/-- Doubling backoff schedule: the list of sleep durations produced by `n`
consecutive retry-decided attempts starting from base duration `base`. -/
def backoffSeq (base : Duration) : Nat → List Duration
  | 0 => []
  | Nat.succ n => base :: backoffSeq (2 * base) n

/-- Sanity: 503 is retryable. -/
example : checkRetryRequired 503 = true := by decide

/-- Sanity: 409 and 200 are not retryable. -/
example : checkRetryRequired 409 = false ∧ checkRetryRequired 200 = false := by
  decide

/-- Length of the doubling backoff schedule. -/
theorem backoffSeq_length (base : Duration) (n : Nat) :
    (backoffSeq base n).length = n := by
  induction n generalizing base with
  | zero => rfl
  | succ n ih => simp [backoffSeq, ih]

/-- Entry `k` of the doubling backoff schedule is `2 ^ k * base`. -/
theorem backoffSeq_get (n : Nat) :
    ∀ (base : Duration) (k : Nat) (hk : k < (backoffSeq base n).length),
      (backoffSeq base n).get ⟨k, hk⟩ = 2 ^ k * base := by
  induction n with
  | zero => intro base k hk; simp [backoffSeq] at hk
  | succ n ih =>
      intro base k hk
      cases k with
      | zero => simp [backoffSeq]
      | succ k =>
          have hk' : k < (backoffSeq (2 * base) n).length := by
            have := hk; simp only [backoffSeq, List.length_cons] at this; omega
          have hstep : (backoffSeq base (n + 1)).get ⟨k + 1, hk⟩ =
              (backoffSeq (2 * base) n).get ⟨k, hk'⟩ := rfl
          rw [hstep, ih (2 * base) k hk']
          ring

/-- One loop iteration that decides a retry: sleep the current backoff,
double it, advance the attempt counter. -/
theorem requestLoop_step_retry (net : Nat → AttemptOutcome)
    (attemptIdx rem : Nat) (backoff : Duration) (last res : SendResult)
    (sleeps : List Duration) (attempts : Nat)
    (hsend : sendRequest (net attemptIdx) = Except.ok res)
    (hr : (checkRetryRequired res.statusCode || res.err.isSome) = true) :
    requestLoop net attemptIdx (rem + 1) backoff last sleeps attempts =
      requestLoop net (attemptIdx + 1) rem (2 * backoff) res
        (sleeps ++ [backoff]) (attempts + 1) := by
  simp [requestLoop, hsend, hr]

/-- When the first `k` attempts decide a retry and attempt `k` does not,
the loop stops at attempt `k` and returns its result, having slept the
doubling schedule `k` times. -/
theorem requestLoop_stop (net : Nat → AttemptOutcome) :
    ∀ (k rem attemptIdx : Nat) (backoff : Duration) (last : SendResult)
      (sleeps : List Duration) (attempts : Nat) (res : SendResult),
    (∀ i, i < k → ∃ ri, sendRequest (net (attemptIdx + i)) = Except.ok ri ∧
        (checkRetryRequired ri.statusCode || ri.err.isSome) = true) →
    sendRequest (net (attemptIdx + k)) = Except.ok res →
    (checkRetryRequired res.statusCode || res.err.isSome) = false →
    k < rem →
    requestLoop net attemptIdx rem backoff last sleeps attempts =
      Except.ok (res, sleeps ++ backoffSeq backoff k, attempts + (k + 1)) := by
  intro k
  induction k with
  | zero =>
      intro rem attemptIdx backoff last sleeps attempts res hpre hsend hnr hlt
      obtain ⟨m, rfl⟩ : ∃ m, rem = m + 1 := ⟨rem - 1, by omega⟩
      rw [Nat.add_zero] at hsend
      simp [requestLoop, hsend, hnr, backoffSeq]
  | succ k ih =>
      intro rem attemptIdx backoff last sleeps attempts res hpre hsend hnr hlt
      obtain ⟨m, rfl⟩ : ∃ m, rem = m + 1 := ⟨rem - 1, by omega⟩
      obtain ⟨r0, hs0, hc0⟩ := hpre 0 (Nat.succ_pos k)
      rw [Nat.add_zero] at hs0
      rw [requestLoop_step_retry net attemptIdx m backoff last r0 sleeps attempts
        hs0 hc0]
      have hpre' : ∀ i, i < k → ∃ ri,
          sendRequest (net (attemptIdx + 1 + i)) = Except.ok ri ∧
          (checkRetryRequired ri.statusCode || ri.err.isSome) = true := by
        intro i hi
        have := hpre (i + 1) (by omega)
        rwa [show attemptIdx + (i + 1) = attemptIdx + 1 + i by omega] at this
      have hsend' : sendRequest (net (attemptIdx + 1 + k)) = Except.ok res := by
        rwa [show attemptIdx + 1 + k = attemptIdx + (k + 1) by omega]
      rw [ih m (attemptIdx + 1) (2 * backoff) r0 (sleeps ++ [backoff])
        (attempts + 1) res hpre' hsend' hnr (by omega)]
      simp only [Except.ok.injEq, Prod.mk.injEq]
      refine ⟨trivial, ?_, by omega⟩
      simp [backoffSeq]

/-- When every attempt responds 503 with a readable body, the loop exhausts
all remaining iterations, sleeping the full doubling schedule, and the final
result carries status 503. -/
theorem requestLoop_all503 (net : Nat → AttemptOutcome)
    (h503 : ∀ i, ∃ b hs, net i = AttemptOutcome.response 503 (some b) hs) :
    ∀ (n attemptIdx : Nat) (backoff : Duration) (last : SendResult)
      (sleeps : List Duration) (attempts : Nat),
    ∃ b hs, requestLoop net attemptIdx (n + 1) backoff last sleeps attempts =
      Except.ok (⟨503, some b, some hs, none⟩,
        sleeps ++ backoffSeq backoff (n + 1), attempts + (n + 1)) := by
  intro n
  induction n with
  | zero =>
      intro attemptIdx backoff last sleeps attempts
      obtain ⟨b, hs, ho⟩ := h503 attemptIdx
      refine ⟨b, hs, ?_⟩
      rw [requestLoop_step_retry net attemptIdx 0 backoff last
        ⟨503, some b, some hs, none⟩ sleeps attempts (by rw [ho]; rfl) (by rfl)]
      simp [requestLoop, backoffSeq]
  | succ n ih =>
      intro attemptIdx backoff last sleeps attempts
      obtain ⟨b, hs, ho⟩ := h503 attemptIdx
      obtain ⟨b2, hs2, hloop⟩ := ih (attemptIdx + 1) (2 * backoff)
        ⟨503, some b, some hs, none⟩ (sleeps ++ [backoff]) (attempts + 1)
      refine ⟨b2, hs2, ?_⟩
      rw [requestLoop_step_retry net attemptIdx (n + 1) backoff last
        ⟨503, some b, some hs, none⟩ sleeps attempts (by rw [ho]; rfl) (by rfl)]
      rw [hloop]
      simp only [Except.ok.injEq, Prod.mk.injEq]
      refine ⟨trivial, ?_, by omega⟩
      simp [backoffSeq]

/-- Every successful loop run's sleep list extends the incoming one by an
initial segment of the doubling schedule from the current backoff. -/
theorem requestLoop_sleeps_shape (net : Nat → AttemptOutcome) :
    ∀ (rem attemptIdx : Nat) (backoff : Duration) (last : SendResult)
      (sleeps : List Duration) (attempts : Nat) (res : SendResult)
      (sleepsF : List Duration) (attemptsF : Nat),
    requestLoop net attemptIdx rem backoff last sleeps attempts =
      Except.ok (res, sleepsF, attemptsF) →
    ∃ m, sleepsF = sleeps ++ backoffSeq backoff m := by
  intro rem
  induction rem with
  | zero =>
      intro attemptIdx backoff last sleeps attempts res sleepsF attemptsF h
      simp only [requestLoop, Except.ok.injEq, Prod.mk.injEq] at h
      exact ⟨0, by simp [backoffSeq, ← h.2.1]⟩
  | succ rem ih =>
      intro attemptIdx backoff last sleeps attempts res sleepsF attemptsF h
      rw [requestLoop] at h
      split at h
      · exact absurd h (by simp)
      · split at h
        · obtain ⟨m, hm⟩ := ih _ _ _ _ _ _ _ _ h
          exact ⟨m + 1, by simp [backoffSeq, hm]⟩
        · simp only [Except.ok.injEq, Prod.mk.injEq] at h
          exact ⟨0, by simp [backoffSeq, ← h.2.1]⟩

/-- On a successful build, prepareRequest reports no error. -/
theorem prepareRequest_none_err (r : RequestHandler)
    (specs : RequestSpecifications) :
    (prepareRequest none r specs).2.2.2 = none := rfl

/-- RetryCount defaulting performed by prepareRequest on the caller's specs. -/
theorem prepareRequest_retryCount (r : RequestHandler)
    (specs : RequestSpecifications) :
    (prepareRequest none r specs).2.1.RetryCount =
      if specs.RetryCount = 0 then defaultRetryCount else specs.RetryCount := by
  by_cases h0 : specs.RetryCount = 0 <;> simp [prepareRequest, h0]

/-- Specs state after prepareRequest: only RetryCount can change. -/
theorem prepareRequest_specs (r : RequestHandler)
    (specs : RequestSpecifications) :
    (prepareRequest none r specs).2.1 =
      { specs with RetryCount :=
          if specs.RetryCount = 0 then defaultRetryCount
          else specs.RetryCount } := by
  by_cases h0 : specs.RetryCount = 0 <;> simp [prepareRequest, h0]

/-- Client state after prepareRequest: Timeout overridden iff specs.Timeout
is nonzero. -/
theorem prepareRequest_handler (r : RequestHandler)
    (specs : RequestSpecifications) :
    (prepareRequest none r specs).1 =
      if specs.Timeout = 0 then r
      else { r with Timeout := specs.Timeout * second } := by
  by_cases h0 : specs.RetryCount = 0 <;> by_cases ht : specs.Timeout = 0 <;>
    simp [prepareRequest, h0, ht]

/-- Forward evaluation of MakeRequest on the valid-build path, given the
loop's result. -/
theorem makeRequest_none_eq_of_loop (net : Nat → AttemptOutcome)
    (r : RequestHandler) (specs : RequestSpecifications) (res : SendResult)
    (sleeps : List Duration) (attempts : Nat)
    (hl : requestLoop net 0 (prepareRequest none r specs).2.1.RetryCount.toNat
        baseBackOffTimeInit ⟨0, none, none, none⟩ [] 0 =
      Except.ok (res, sleeps, attempts)) :
    MakeRequest none net r specs = Except.ok
      { statusCode := res.statusCode, body := res.body, headers := res.headers,
        err := res.err, handler := (prepareRequest none r specs).1,
        specs := (prepareRequest none r specs).2.1, sleeps := sleeps,
        attempts := attempts } := by
  rcases hp : prepareRequest none r specs with ⟨r2, specs2, req, errOpt⟩
  have h4 : errOpt = none := by
    have := congrArg (fun t =>
      t.2.2.2 : RequestHandler × RequestSpecifications × Option Request ×
        Option String → Option String) hp
    simpa [prepareRequest_none_err] using this.symm
  subst h4
  rw [hp] at hl
  rw [MakeRequest, hp]
  simp only []
  rw [hl]

/-- Inversion of a successful MakeRequest on the valid-build path: the
returned handler and specs come from prepareRequest and the four result
values and bookkeeping come from the loop. -/
theorem makeRequest_none_inversion (net : Nat → AttemptOutcome)
    (r : RequestHandler) (specs : RequestSpecifications)
    (out : DispatchOutcome)
    (h : MakeRequest none net r specs = Except.ok out) :
    out.handler = (prepareRequest none r specs).1 ∧
    out.specs = (prepareRequest none r specs).2.1 ∧
    requestLoop net 0 (prepareRequest none r specs).2.1.RetryCount.toNat
        baseBackOffTimeInit ⟨0, none, none, none⟩ [] 0 =
      Except.ok (⟨out.statusCode, out.body, out.headers, out.err⟩,
        out.sleeps, out.attempts) := by
  rcases hp : prepareRequest none r specs with ⟨r2, specs2, req, errOpt⟩
  have h4 : errOpt = none := by
    have := congrArg (fun t =>
      t.2.2.2 : RequestHandler × RequestSpecifications × Option Request ×
        Option String → Option String) hp
    simpa [prepareRequest_none_err] using this.symm
  subst h4
  rw [MakeRequest, hp] at h
  simp only [] at h
  rcases hl : requestLoop net 0 specs2.RetryCount.toNat baseBackOffTimeInit
      ⟨0, none, none, none⟩ [] 0 with p | t
  · rw [hl] at h
    exact absurd h (by simp)
  · rcases t with ⟨res, sleepsF, attemptsF⟩
    rw [hl] at h
    simp only [Except.ok.injEq] at h
    subst h
    exact ⟨rfl, rfl, rfl⟩

/-- Concrete network oracle: every attempt returns 200 with an empty,
readable body and no headers. -/
def netOK200 : Nat → AttemptOutcome :=
  fun _ => AttemptOutcome.response 200 (some "") []

/-- Concrete network oracle: every attempt returns 503 with an empty,
readable body. -/
def net503 : Nat → AttemptOutcome :=
  fun _ => AttemptOutcome.response 503 (some "") []

/-- Concrete specs: GET, no timeout override, RetryCount left 0. -/
def specsRC0 : RequestSpecifications :=
  ⟨"http://localhost:8080/v1/accounts", "GET", "", 0, 0⟩

/-- C1: the spec says a dispatch attempt whose HTTP send succeeds but whose
body read fails returns the received status, an empty body, nil headers and
a non-nil error, and that the library never terminates the caller. In the
code, that path formats `err.Error()` where `err` is the nil error left by
the successful `Do` call, so the dispatch panics (nil pointer dereference)
instead of returning: here a 200 response whose body read fails makes
MakeRequest panic. -/
theorem makeRequest_read_failure_panics :
    MakeRequest none (fun _ => AttemptOutcome.response 200 none [])
        (NewRequestHandler none) specsRC0 =
      Except.error GoPanic.nilPointerDereference := rfl

/-- C9: a dispatch whose method or URL is structurally invalid (the request
build fails with message `e`) returns immediately: the error is non-nil and
wraps the build failure, the status and body and headers are the zero
values, no network attempt is made, and no backoff sleep occurs. -/
theorem makeRequest_build_error (e : String) (net : Nat → AttemptOutcome)
    (r : RequestHandler) (specs : RequestSpecifications) :
    MakeRequest (some e) net r specs =
      Except.ok
        { statusCode := 0, body := none, headers := none,
          err := some ("unable to create http request. error: " ++ e),
          handler := r, specs := specs, sleeps := [], attempts := 0 } := rfl

/-- C10: with a valid method and URL and a negative RetryCount, the retry
loop guard `requestCount <= specs.RetryCount` fails at once, so MakeRequest
makes zero network attempts, sleeps zero times, and returns status 0, nil
body, nil headers and a nil error. -/
theorem makeRequest_negative_retry (net : Nat → AttemptOutcome)
    (r : RequestHandler) (specs : RequestSpecifications)
    (h : specs.RetryCount < 0) :
    (MakeRequest none net r specs).map
        (fun o => (o.statusCode, o.body, o.headers, o.err, o.sleeps,
          o.attempts)) =
      Except.ok (0, none, none, none, [], 0) := by
  have hrc : (prepareRequest none r specs).2.1.RetryCount.toNat = 0 := by
    rw [prepareRequest_retryCount]
    have h0 : ¬ specs.RetryCount = 0 := by omega
    rw [if_neg h0]
    omega
  rw [makeRequest_none_eq_of_loop net r specs ⟨0, none, none, none⟩ [] 0
    (by rw [hrc]; rfl)]
  rfl

/-- Concrete specs with RetryCount -1 for the C10 witness. -/
def specsNegRetry : RequestSpecifications :=
  ⟨"http://localhost:8080/v1/accounts", "GET", "", 0, -1⟩

/-- Witness for C10 at RetryCount = -1 with a network that would answer
200 if asked: nothing is sent and the zero-value result comes back. -/
theorem makeRequest_negative_retry_witness :
    (MakeRequest none netOK200 (NewRequestHandler none) specsNegRetry).map
        (fun o => (o.statusCode, o.body, o.headers, o.err, o.sleeps,
          o.attempts)) =
      Except.ok (0, none, none, none, [], 0) :=
  makeRequest_negative_retry netOK200 (NewRequestHandler none) specsNegRetry
    (by decide)

/-- C8 amended: a transport-level timeout yields synthesized status 408 with
error message "timeout encountered. error: " followed by the underlying
message, and any other transport failure yields status 0 with error message
"failed to send request. Error: " followed by the underlying message; in
both cases body and headers are nil. (The spec's quoted separators
": " differ from the code's ". error: " and ". Error: ".) -/
theorem sendRequest_transport_failure_results (msg : String) :
    sendRequest (AttemptOutcome.transportTimeout msg) =
      Except.ok
        { statusCode := 408, body := none, headers := none,
          err := some ("timeout encountered. error: " ++ msg) } ∧
    sendRequest (AttemptOutcome.transportFailure msg) =
      Except.ok
        { statusCode := 0, body := none, headers := none,
          err := some ("failed to send request. Error: " ++ msg) } :=
  ⟨rfl, rfl⟩

/-- C8 counterexample: the claim states the timeout error message is exactly
"timeout encountered: " followed by the underlying message; the code
produces "timeout encountered. error: " followed by it, a different string
(and likewise "failed to send request. Error: " versus the claimed
"failed to send request: "). -/
theorem sendRequest_timeout_message_cex :
    (sendRequest (AttemptOutcome.transportTimeout "ctx")).map SendResult.err =
      Except.ok (some ("timeout encountered. error: " ++ "ctx")) ∧
    ("timeout encountered. error: " ++ "ctx") ≠
      ("timeout encountered: " ++ "ctx") :=
  ⟨rfl, by decide⟩

/-- C7: for each status code in the fixed table the classifier returns a
non-nil error whose message is exactly the mapped category, a colon and a
space, and the body text; for every code outside the table (0 and 510
included) it returns a non-nil error with the "internal error" message. -/
theorem handleErrorStatusCode_classifies (body : String) :
    HandleErrorStatusCode 400 body = some ("bad request" ++ ": " ++ body) ∧
    HandleErrorStatusCode 401 body = some ("unauthorized" ++ ": " ++ body) ∧
    HandleErrorStatusCode 403 body = some ("forbidden" ++ ": " ++ body) ∧
    HandleErrorStatusCode 404 body =
      some ("resource not found" ++ ": " ++ body) ∧
    HandleErrorStatusCode 405 body =
      some ("incorrect http method" ++ ": " ++ body) ∧
    HandleErrorStatusCode 406 body =
      some ("incorrect content type" ++ ": " ++ body) ∧
    HandleErrorStatusCode 409 body =
      some ("request conflict" ++ ": " ++ body) ∧
    HandleErrorStatusCode 429 body =
      some ("too many requests" ++ ": " ++ body) ∧
    HandleErrorStatusCode 500 body =
      some ("internal server error" ++ ": " ++ body) ∧
    HandleErrorStatusCode 502 body = some ("bad gateway" ++ ": " ++ body) ∧
    HandleErrorStatusCode 503 body =
      some ("service unavailable" ++ ": " ++ body) ∧
    HandleErrorStatusCode 504 body =
      some ("gateway timeout" ++ ": " ++ body) ∧
    ∀ statusCode : Int,
      statusCode ∉ ([400, 401, 403, 404, 405, 406, 409, 429, 500, 502, 503,
        504] : List Int) →
      HandleErrorStatusCode statusCode body =
        some ("internal error" ++ ": " ++ body) := by
  refine ⟨rfl, rfl, rfl, rfl, rfl, rfl, rfl, rfl, rfl, rfl, rfl, rfl, ?_⟩
  intro statusCode hmem
  simp only [List.mem_cons, List.not_mem_nil, or_false, not_or] at hmem
  obtain ⟨h1, h2, h3, h4, h5, h6, h7, h8, h9, h10, h11, h12⟩ := hmem
  have g : ∀ k : Int, statusCode ≠ k → (statusCode == k) = false :=
    fun k hk => beq_eq_false_iff_ne.mpr hk
  simp [HandleErrorStatusCode, ErrorMap, List.lookup, g _ h1, g _ h2, g _ h3,
    g _ h4, g _ h5, g _ h6, g _ h7, g _ h8, g _ h9, g _ h10, g _ h11,
    g _ h12]

/-- Witness for C7 at body "acct": 404 maps to "resource not found" and the
unmapped 510 falls back to "internal error". -/
theorem handleErrorStatusCode_witness :
    HandleErrorStatusCode 404 "acct" =
      some ("resource not found" ++ ": " ++ "acct") ∧
    HandleErrorStatusCode 510 "acct" =
      some ("internal error" ++ ": " ++ "acct") := by
  obtain ⟨-, -, -, h404, -, -, -, -, -, -, -, -, hfall⟩ :=
    handleErrorStatusCode_classifies "acct"
  exact ⟨h404, hfall 510 (by decide)⟩

/-- Position `k` of the doubling backoff schedule holds `2 ^ k * base`. -/
theorem backoffSeq_getElem? (n : Nat) :
    ∀ (base : Duration) (k : Nat), k < n →
      (backoffSeq base n)[k]? = some (2 ^ k * base) := by
  induction n with
  | zero => intro base k hk; omega
  | succ n ih =>
      intro base k hk
      cases k with
      | zero => simp [backoffSeq]
      | succ k =>
          have hstep : (backoffSeq base (n + 1))[k + 1]? =
              (backoffSeq (2 * base) n)[k]? := by
            simp [backoffSeq]
          rw [hstep, ih (2 * base) k (by omega)]
          have h2 : (2 : Duration) ^ (k + 1) * base = 2 ^ k * (2 * base) := by
            ring
          rw [h2]

/-- C2: when every attempt answers 503 (with a readable body) the dispatch
exhausts exactly the effective retry count — the specification's RetryCount,
or 3 when that is 0 — and returns status 503 from the final attempt. -/
theorem makeRequest_all503_exhausts (net : Nat → AttemptOutcome)
    (r : RequestHandler) (specs : RequestSpecifications)
    (h503 : ∀ i, ∃ b hs, net i = AttemptOutcome.response 503 (some b) hs)
    (hrc : 0 ≤ specs.RetryCount) :
    (MakeRequest none net r specs).map (fun o => (o.statusCode, o.attempts)) =
      Except.ok (503,
        (if specs.RetryCount = 0 then defaultRetryCount
         else specs.RetryCount).toNat) := by
  have hN : (prepareRequest none r specs).2.1.RetryCount.toNat =
      (if specs.RetryCount = 0 then defaultRetryCount
       else specs.RetryCount).toNat := by
    rw [prepareRequest_retryCount]
  have hN1 : 1 ≤ (if specs.RetryCount = 0 then defaultRetryCount
      else specs.RetryCount).toNat := by
    by_cases h0 : specs.RetryCount = 0
    · rw [if_pos h0]; decide
    · rw [if_neg h0]; omega
  obtain ⟨M, hM⟩ : ∃ M, (if specs.RetryCount = 0 then defaultRetryCount
      else specs.RetryCount).toNat = M + 1 :=
    ⟨(if specs.RetryCount = 0 then defaultRetryCount
      else specs.RetryCount).toNat - 1, by omega⟩
  obtain ⟨b, hs, hloop⟩ := requestLoop_all503 net h503 M 0 baseBackOffTimeInit
    ⟨0, none, none, none⟩ [] 0
  rw [makeRequest_none_eq_of_loop net r specs ⟨503, some b, some hs, none⟩
    ([] ++ backoffSeq baseBackOffTimeInit (M + 1)) (0 + (M + 1))
    (by rw [hN, hM]; exact hloop)]
  simp [Except.map, hM]

/-- Witness for C2: RetryCount 0 defaults to 3; all attempts 503 yields
exactly 3 attempts and final status 503. -/
theorem makeRequest_all503_witness :
    (MakeRequest none net503 (NewRequestHandler none) specsRC0).map
        (fun o => (o.statusCode, o.attempts)) = Except.ok (503, 3) := by
  have h := makeRequest_all503_exhausts net503 (NewRequestHandler none)
    specsRC0 (fun i => ⟨"", [], rfl⟩) (by decide)
  exact h

/-- Concrete specs with RetryCount 1 for C3's counterexample. -/
def specsRC1 : RequestSpecifications :=
  ⟨"http://localhost:8080/v1/accounts", "GET", "", 0, 1⟩

/-- C3 counterexample: the claim says no backoff sleep happens after the
final attempt when retries are exhausted. With RetryCount 1 and a 503
answer, the single (hence final) attempt exhausts the retries, yet the code
sleeps 100ms after it: one attempt, one sleep. -/
theorem makeRequest_sleep_after_final_attempt_cex :
    (MakeRequest none net503 (NewRequestHandler none) specsRC1).map
        (fun o => (o.attempts, o.sleeps)) =
      Except.ok (1, [100 * millisecond]) := rfl

/-- C3 amended/theorem: in every dispatch the executed backoff sleeps form
an initial segment of the doubling schedule 100ms, 200ms, 400ms, ... (entry
`k` is `2 ^ k * 100ms`, each exactly double the previous, no upper cap); a
sleep runs after every attempt whose outcome decides a retry — including
the final attempt when retries are exhausted. -/
theorem makeRequest_backoff_doubling (newRequestErr : Option String)
    (net : Nat → AttemptOutcome) (r : RequestHandler)
    (specs : RequestSpecifications) (out : DispatchOutcome)
    (h : MakeRequest newRequestErr net r specs = Except.ok out) :
    out.sleeps = backoffSeq (100 * millisecond) out.sleeps.length ∧
    ∀ k : Nat, k < out.sleeps.length →
      out.sleeps[k]? = some (2 ^ k * (100 * millisecond)) := by
  have hshape : ∃ m, out.sleeps = backoffSeq (100 * millisecond) m := by
    cases newRequestErr with
    | some e =>
        have h0 : MakeRequest (some e) net r specs =
            Except.ok
              { statusCode := 0, body := none, headers := none,
                err := some ("unable to create http request. error: " ++ e),
                handler := r, specs := specs, sleeps := [],
                attempts := 0 } := rfl
        rw [h0] at h
        simp only [Except.ok.injEq] at h
        exact ⟨0, by rw [← h]; rfl⟩
    | none =>
        obtain ⟨-, -, hl⟩ := makeRequest_none_inversion net r specs out h
        obtain ⟨m, hm⟩ := requestLoop_sleeps_shape net _ 0 baseBackOffTimeInit
          ⟨0, none, none, none⟩ [] 0
          ⟨out.statusCode, out.body, out.headers, out.err⟩ out.sleeps
          out.attempts hl
        refine ⟨m, ?_⟩
        simpa only [baseBackOffTimeInit, List.nil_append] using hm
  obtain ⟨m, hm⟩ := hshape
  have hlen : out.sleeps.length = m := by rw [hm, backoffSeq_length]
  constructor
  · rw [hm, backoffSeq_length]
  · intro k hk
    rw [hm, backoffSeq_getElem? m (100 * millisecond) k (by omega)]

/-- Concrete specs with RetryCount 2 for the C3 witness. -/
def specsRC2 : RequestSpecifications :=
  ⟨"http://localhost:8080/v1/accounts", "GET", "", 0, 2⟩

/-- Outcome of dispatching specsRC2 against an all-503 network. -/
def out503RC2 : DispatchOutcome :=
  { statusCode := 503, body := some "", headers := some [], err := none,
    handler := { Timeout := defaultTimeout }, specs := specsRC2,
    sleeps := [100 * millisecond, 200 * millisecond], attempts := 2 }

/-- Witness for C3's amended claim: a two-attempt all-503 run sleeps
100ms then 200ms, the doubling schedule of length 2. -/
theorem makeRequest_backoff_doubling_witness :
    out503RC2.sleeps =
      backoffSeq (100 * millisecond) out503RC2.sleeps.length ∧
    ∀ k : Nat, k < out503RC2.sleeps.length →
      out503RC2.sleeps[k]? = some (2 ^ k * (100 * millisecond)) :=
  makeRequest_backoff_doubling none net503 (NewRequestHandler none) specsRC2
    out503RC2 rfl

/-- Concrete specs overriding the timeout to 10 seconds. -/
def specsT10 : RequestSpecifications :=
  ⟨"http://localhost:8080/v1/accounts", "GET", "", 10, 1⟩

/-- Concrete specs with no timeout override. -/
def specsT0 : RequestSpecifications :=
  ⟨"http://localhost:8080/v1/accounts", "GET", "", 0, 1⟩

/-- Outcome of dispatching specsT10: the shared client's timeout is now 10s. -/
def outT10 : DispatchOutcome :=
  { statusCode := 200, body := some "", headers := some [], err := none,
    handler := { Timeout := 10 * second }, specs := specsT10,
    sleeps := [], attempts := 1 }

/-- Outcome of the follow-up dispatch of specsT0 on the mutated client. -/
def outT0 : DispatchOutcome :=
  { statusCode := 200, body := some "", headers := some [], err := none,
    handler := { Timeout := 10 * second }, specs := specsT0,
    sleeps := [], attempts := 1 }

/-- C4 counterexample: the claim says a timeoutSeconds override applies to
that call only and a subsequent dispatch with timeoutSeconds 0 runs with the
original default. In the code the override mutates the shared client: after
a dispatch with Timeout 10, a dispatch with Timeout 0 still runs with the
10s timeout, not the 5s default. -/
theorem makeRequest_timeout_not_per_call_cex :
    MakeRequest none netOK200 (NewRequestHandler none) specsT10 =
      Except.ok outT10 ∧
    MakeRequest none netOK200 outT10.handler specsT0 = Except.ok outT0 ∧
    outT0.handler.Timeout = 10 * second ∧
    (NewRequestHandler none).Timeout = 5 * second ∧
    outT0.handler.Timeout ≠ (NewRequestHandler none).Timeout :=
  ⟨rfl, rfl, rfl, rfl, by decide⟩

/-- C4 amended/theorem: a nonzero timeoutSeconds override persists on the
shared client: the dispatch sets the client timeout to t seconds, and a
subsequent dispatch with timeoutSeconds 0 on the same (mutated) handler
still runs with t seconds, not the dispatcher's original default. -/
theorem makeRequest_timeout_override_persists
    (net net2 : Nat → AttemptOutcome) (r : RequestHandler)
    (specs specs2 : RequestSpecifications) (out out2 : DispatchOutcome)
    (h1 : MakeRequest none net r specs = Except.ok out)
    (ht : specs.Timeout ≠ 0)
    (h2 : MakeRequest none net2 out.handler specs2 = Except.ok out2)
    (ht2 : specs2.Timeout = 0) :
    out.handler.Timeout = specs.Timeout * second ∧
    out2.handler.Timeout = specs.Timeout * second := by
  obtain ⟨hh1, -, -⟩ := makeRequest_none_inversion net r specs out h1
  obtain ⟨hh2, -, -⟩ :=
    makeRequest_none_inversion net2 out.handler specs2 out2 h2
  have e1 : out.handler.Timeout = specs.Timeout * second := by
    rw [hh1, prepareRequest_handler, if_neg ht]
  refine ⟨e1, ?_⟩
  rw [hh2, prepareRequest_handler, if_pos ht2, e1]

/-- Witness for C4's amended claim at timeouts 10 then 0. -/
theorem makeRequest_timeout_override_witness :
    outT10.handler.Timeout = specsT10.Timeout * second ∧
    outT0.handler.Timeout = specsT10.Timeout * second :=
  makeRequest_timeout_override_persists netOK200 netOK200
    (NewRequestHandler none) specsT10 specsT0 outT10 outT0 rfl (by decide)
    rfl rfl

/-- Outcome of dispatching specsRC0 against the all-200 network: the specs
carried back show RetryCount 3. -/
def outRC0 : DispatchOutcome :=
  { statusCode := 200, body := some "", headers := some [], err := none,
    handler := { Timeout := defaultTimeout },
    specs := ⟨"http://localhost:8080/v1/accounts", "GET", "", 0, 3⟩,
    sleeps := [], attempts := 1 }

/-- C5 counterexample: the claim says every field of the caller's
specification is unchanged after MakeRequest. A dispatch with RetryCount 0
mutates the caller's specification: afterwards its RetryCount reads 3. -/
theorem makeRequest_mutates_specs_cex :
    specsRC0.RetryCount = 0 ∧
    MakeRequest none netOK200 (NewRequestHandler none) specsRC0 =
      Except.ok outRC0 ∧
    outRC0.specs.RetryCount = 3 :=
  ⟨rfl, rfl, rfl⟩

/-- C5 amended/theorem: after a dispatch with a valid build, the caller's
specification is unchanged in method, url, body and timeoutSeconds, and its
retryCount is unchanged when nonzero but rewritten to the default 3 when it
was 0. -/
theorem makeRequest_specs_frame (net : Nat → AttemptOutcome)
    (r : RequestHandler) (specs : RequestSpecifications)
    (out : DispatchOutcome)
    (h : MakeRequest none net r specs = Except.ok out) :
    out.specs.URL = specs.URL ∧ out.specs.HTTPMethod = specs.HTTPMethod ∧
    out.specs.Params = specs.Params ∧ out.specs.Timeout = specs.Timeout ∧
    out.specs.RetryCount =
      (if specs.RetryCount = 0 then defaultRetryCount
       else specs.RetryCount) := by
  obtain ⟨-, hsp, -⟩ := makeRequest_none_inversion net r specs out h
  rw [hsp, prepareRequest_specs]
  exact ⟨rfl, rfl, rfl, rfl, rfl⟩

/-- Witness for C5's amended claim at RetryCount 0. -/
theorem makeRequest_specs_frame_witness :
    outRC0.specs.URL = specsRC0.URL ∧
    outRC0.specs.HTTPMethod = specsRC0.HTTPMethod ∧
    outRC0.specs.Params = specsRC0.Params ∧
    outRC0.specs.Timeout = specsRC0.Timeout ∧
    outRC0.specs.RetryCount =
      (if specsRC0.RetryCount = 0 then defaultRetryCount
       else specsRC0.RetryCount) :=
  makeRequest_specs_frame netOK200 (NewRequestHandler none) specsRC0 outRC0
    rfl

/-- C6: whenever the first k attempts decide a retry and attempt k (still
within the effective retry budget) yields a non-retryable status with no
transport error, MakeRequest stops immediately after exactly k+1 attempts
and returns that attempt's status, body, headers and error. -/
theorem makeRequest_stops_on_nonretryable (net : Nat → AttemptOutcome)
    (r : RequestHandler) (specs : RequestSpecifications) (k : Nat)
    (res : SendResult)
    (hpre : ∀ i, i < k → ∃ ri, sendRequest (net i) = Except.ok ri ∧
        (checkRetryRequired ri.statusCode || ri.err.isSome) = true)
    (hk : sendRequest (net k) = Except.ok res)
    (hnr : (checkRetryRequired res.statusCode || res.err.isSome) = false)
    (hlt : k < (if specs.RetryCount = 0 then defaultRetryCount
        else specs.RetryCount).toNat) :
    (MakeRequest none net r specs).map
        (fun o => (o.statusCode, o.body, o.headers, o.err, o.attempts)) =
      Except.ok (res.statusCode, res.body, res.headers, res.err, k + 1) := by
  have hloop := requestLoop_stop net k
    (prepareRequest none r specs).2.1.RetryCount.toNat 0 baseBackOffTimeInit
    ⟨0, none, none, none⟩ [] 0 res
    (fun i hi => by simpa using hpre i hi)
    (by simpa using hk) hnr
    (by rw [prepareRequest_retryCount]; exact hlt)
  rw [makeRequest_none_eq_of_loop net r specs res _ _ hloop]
  simp [Except.map]

/-- Network answering 503 on the first attempt and 200 afterwards. -/
def net503then200 : Nat → AttemptOutcome := fun i =>
  if i = 0 then AttemptOutcome.response 503 (some "") []
  else AttemptOutcome.response 200 (some "account") []

/-- Witness for C6: a 503 then a 200 makes exactly two attempts and returns
the 200 result. -/
theorem makeRequest_stops_witness :
    (MakeRequest none net503then200 (NewRequestHandler none) specsRC0).map
        (fun o => (o.statusCode, o.body, o.headers, o.err, o.attempts)) =
      Except.ok (200, some "account", some [], none, 2) := by
  have h := makeRequest_stops_on_nonretryable net503then200
    (NewRequestHandler none) specsRC0 1
    { statusCode := 200, body := some "account", headers := some [],
      err := none }
    (by
      intro i hi
      have hi0 : i = 0 := by omega
      subst hi0
      exact ⟨⟨503, some "", some [], none⟩, rfl, rfl⟩)
    rfl (by rfl) (by decide)
  exact h

end AccountLib
